import Mathlib

/-!
Verification of the BRC-78 message-encryption envelope and the supporting
codecs of the `bsv` SDK (`bsv/encrypted_message.py`, exercised by
`tests/test_utils.py`).  Bytes are modelled as `Nat` values below 256 and
byte strings as `List Nat`; machine arithmetic is explicit `% 2 ^ w`.
-/

deriving instance DecidableEq for Except

namespace BsvSdk

/-- Big-endian minimal byte encoding, fuel-based so that the kernel can
evaluate it (`fuel` bounds the recursion depth; `natToBE` supplies enough). -/
def natToBEAux : Nat → Nat → List Nat
  | 0, n => [n % 256]
  | fuel + 1, n => if n < 256 then [n] else natToBEAux fuel (n / 256) ++ [n % 256]

/-- Big-endian minimal byte encoding of a natural number (at least one
byte, no leading zero byte for positive inputs): `int.to_bytes` with the
exact required width. -/
def natToBE (n : Nat) : List Nat := natToBEAux n n

/-- Big-endian interpretation of a byte string: `int.from_bytes(_, 'big')`. -/
def beToNat (bs : List Nat) : Nat :=
  bs.foldl (fun a b => a * 256 + b) 0

/-- `beToNat` on an arbitrary accumulator. -/
theorem beToNat_foldl (bs : List Nat) (a : Nat) :
    bs.foldl (fun a b => a * 256 + b) a = a * 256 ^ bs.length + beToNat bs := by
  induction bs generalizing a with
  | nil => simp [beToNat]
  | cons x xs ih =>
    simp only [List.foldl_cons, beToNat, List.length_cons]
    rw [ih, ih (0 * 256 + x)]
    ring

/-- Appending one byte multiplies the decoded value by 256 and adds it. -/
theorem beToNat_append_single (l : List Nat) (x : Nat) :
    beToNat (l ++ [x]) = beToNat l * 256 + x := by
  rw [beToNat, List.foldl_append]
  simp [beToNat]

/-- Decoding inverts the fuel-based big-endian encoding whenever the fuel
covers the value. -/
theorem beToNat_natToBEAux (fuel : Nat) :
    ∀ n, n < 256 ^ (fuel + 1) → beToNat (natToBEAux fuel n) = n := by
  induction fuel with
  | zero =>
    intro n h
    have : n % 256 = n := Nat.mod_eq_of_lt (by simpa using h)
    simp [natToBEAux, beToNat, this]
  | succ fuel ih =>
    intro n h
    rw [natToBEAux]
    split
    · simp [beToNat]
    · rename_i hn
      rw [beToNat_append_single]
      have hdiv : n / 256 < 256 ^ (fuel + 1) := by
        rw [Nat.div_lt_iff_lt_mul (by omega)]
        calc n < 256 ^ (fuel + 2) := h
        _ = 256 ^ (fuel + 1) * 256 := by ring
      rw [ih (n / 256) hdiv]
      omega

/-- Any natural number is below `256 ^ (n + 1)`. -/
theorem lt_pow256_succ (n : Nat) : n < 256 ^ (n + 1) := by
  calc n < 2 ^ n := Nat.lt_two_pow n
  _ ≤ 256 ^ n := Nat.pow_le_pow_left (by omega) n
  _ < 256 ^ (n + 1) := Nat.pow_lt_pow_right (by omega) (by omega)

/-- Decoding inverts the minimal big-endian encoding. -/
theorem beToNat_natToBE (n : Nat) : beToNat (natToBE n) = n :=
  beToNat_natToBEAux n n (lt_pow256_succ n)

/-- Leading zero bytes do not change the decoded value. -/
theorem beToNat_zeros_append (k : Nat) (bs : List Nat) :
    beToNat (List.replicate k 0 ++ bs) = beToNat bs := by
  induction k with
  | zero => simp
  | succ k ih =>
    simpa [beToNat, List.replicate_succ] using ih

/-- The fuel-based big-endian encoding of `n < 256 ^ k` (for `k ≥ 1`)
takes at most `k` bytes. -/
theorem natToBEAux_length_le (fuel : Nat) :
    ∀ n k, 1 ≤ k → n < 256 ^ k → (natToBEAux fuel n).length ≤ k := by
  induction fuel with
  | zero => intro n k hk _; simpa [natToBEAux] using hk
  | succ fuel ih =>
    intro n k hk h
    rw [natToBEAux]
    split
    · simpa using hk
    · rename_i hn
      rcases k with _ | k
      · omega
      rcases k with _ | k
      · exact absurd h (by simpa [pow_succ] using hn)
      have hdiv : n / 256 < 256 ^ (k + 1) := by
        rw [Nat.div_lt_iff_lt_mul (by omega)]
        calc n < 256 ^ (k + 2) := h
        _ = 256 ^ (k + 1) * 256 := by ring
      have := ih (n / 256) (k + 1) (by omega) hdiv
      simpa [List.length_append] using by omega

/-- The minimal big-endian encoding of `n < 256 ^ k` (for `k ≥ 1`) takes
at most `k` bytes. -/
theorem natToBE_length_le (n k : Nat) (hk : 1 ≤ k) (h : n < 256 ^ k) :
    (natToBE n).length ≤ k :=
  natToBEAux_length_le n n k hk h

/-- Fixed 32-byte big-endian encoding: `int.to_bytes(32, 'big')`, i.e. the
minimal encoding left-padded with zero bytes to width 32. -/
def be32 (n : Nat) : List Nat :=
  List.replicate (32 - (natToBE n).length) 0 ++ natToBE n

theorem beToNat_be32 (n : Nat) : beToNat (be32 n) = n := by
  rw [be32, beToNat_zeros_append, beToNat_natToBE]

theorem be32_length (n : Nat) (h : n < 2 ^ 256) : (be32 n).length = 32 := by
  have : (natToBE n).length ≤ 32 :=
    natToBE_length_le n 32 (by omega) (by norm_num at h ⊢; omega)
  simp [be32, List.length_append, List.length_replicate]
  omega

/-- Error kinds raised by the embedded operations.  Python raises
`ValueError` / `OverflowError` with distinguishing messages; `decrypt`
re-raises every internal error wrapped as `decryptFailed` carrying the
original cause (`raise ValueError(f'failed to decrypt message: ...') from e`). -/
inductive Err where
  | versionMismatch (got : List Nat)
  | recipientMismatch (expected got : List Nat)
  | invalidPoint
  | macCheckFailed
  | overflowError
  | invalidDerEncoded
  | invalidSigLength
  | invalidSigMarker
  | decryptFailed (cause : Err)
  deriving DecidableEq

/-- Modelled from the spec: the order `n` of the secp256k1 group, supplied
by the external curve library (`bsv.curve`, not under src): a fixed
process-wide constant. -/
def curveN : Nat :=
  0xFFFFFFFFFFFFFFFFFFFFFFFFFFFFFFFEBAAEDCE6AF48A03BBFD25E8CD0364141

/-- Modelled from the spec: `bsv.keys` (not under src).  Every key in play
is a multiple of the fixed generator `G`, so the subgroup is modelled by
discrete logarithms: a point is its scalar `p` with `p * G` left implicit,
and point addition / scalar multiplication become `+` / `*` mod `curveN`.
`public_key` maps a private scalar to its point. -/
def public_key (priv : Nat) : Nat := priv % curveN

/-- Modelled from the spec: compressed SEC serialization of a point
(33 bytes: 1-byte parity prefix `02`/`03` + 32-byte x-coordinate), on the
discrete-logarithm model of the subgroup. -/
def point_serialize (p : Nat) : List Nat := (2 + p % 2) :: be32 p

/-- Modelled from the spec: the `PublicKey(bytes)` constructor of
`bsv.keys` (not under src): parses a 33-byte compressed point, rejecting
byte strings that encode no valid point. -/
def point_deserialize (bs : List Nat) : Except Err Nat :=
  if bs.length = 33 ∧ bs.headD 0 = 2 + beToNat (bs.drop 1) % 2 ∧
      beToNat (bs.drop 1) < curveN
  then .ok (beToNat (bs.drop 1))
  else .error .invalidPoint

/-- Modelled from the spec: `derive_shared_secret` of `bsv.keys` (not
under src): ECDH — multiply the counterparty point by the private scalar
and serialize the result compressed (33 bytes). -/
def derive_shared_secret (priv pub : Nat) : List Nat :=
  point_serialize (priv * pub % curveN)

/-- Modelled from the spec: the external HMAC primitive used by the
key-derivation engine; an arbitrary deterministic byte function standing
in for the hash-based MAC collaborator. -/
def hmacModel (key msg : List Nat) : Nat :=
  (key ++ 46 :: msg).foldl (fun a b => (a * 131 + b + 1) % 2 ^ 256) 1

/-- Modelled from the spec: `derive_child` on a `PrivateKey` (`bsv.keys`,
not under src): `offset = HMAC(sharedSecretBytes, invoice) mod n`,
`child_scalar = (self.scalar + offset) mod n`. -/
def derive_child_private (priv counterPub : Nat) (inv : List Nat) : Nat :=
  (priv + hmacModel (derive_shared_secret priv counterPub) inv % curveN) % curveN

/-- Modelled from the spec: `derive_child` on a `PublicKey` (`bsv.keys`,
not under src): same offset from the same shared secret (computed from the
counterparty private key's side), `child_point = self.point + offset * G`. -/
def derive_child_public (pub counterPriv : Nat) (inv : List Nat) : Nat :=
  (pub + hmacModel (derive_shared_secret counterPriv pub) inv % curveN) % curveN

/-- Modelled from the spec: the base64 alphabet of the external `base64`
module (value `v < 64` to ASCII code). -/
def b64char (v : Nat) : Nat :=
  if v < 26 then v + 65
  else if v < 52 then v + 71
  else if v < 62 then v - 4
  else if v = 62 then 43 else 47

/-- Modelled from the spec: `base64.b64encode` of the external standard
library, emitting ASCII codes with `=` (61) padding. -/
def b64encode : List Nat → List Nat
  | [] => []
  | [a] => [b64char (a / 4), b64char (a % 4 * 16), 61, 61]
  | [a, b] => [b64char (a / 4), b64char (a % 4 * 16 + b / 16), b64char (b % 16 * 4), 61]
  | a :: b :: c :: rest =>
      b64char (a / 4) :: b64char (a % 4 * 16 + b / 16) ::
      b64char (b % 16 * 4 + c / 64) :: b64char (c % 64) :: b64encode rest

/-- Modelled from the spec: value of a base64 alphabet character
(64 marks a character outside the alphabet). -/
def b64charVal (c : Nat) : Nat :=
  if 65 ≤ c ∧ c ≤ 90 then c - 65
  else if 97 ≤ c ∧ c ≤ 122 then c - 71
  else if 48 ≤ c ∧ c ≤ 57 then c + 4
  else if c = 43 then 62
  else if c = 47 then 63 else 64

/-- Modelled from the spec: `base64.b64decode` of the external standard
library on well-formed input (4-character groups, `=` padding). -/
def b64decode : List Nat → List Nat
  | a :: b :: c :: d :: rest =>
      if c = 61 then [b64charVal a * 4 + b64charVal b / 16]
      else if d = 61 then
        [b64charVal a * 4 + b64charVal b / 16,
         b64charVal b % 16 * 16 + b64charVal c / 4]
      else
        (b64charVal a * 4 + b64charVal b / 16) ::
        (b64charVal b % 16 * 16 + b64charVal c / 4) ::
        (b64charVal c % 4 * 64 + b64charVal d) :: b64decode rest
  | _ => []

/-- ASCII codes of the literal invoice-number text `2-message encryption-`
(`encrypted_message.py` line 33). -/
def invoiceHeader : List Nat :=
  ("2-message encryption-").toList.map (fun c => c.toNat)

/-- The invoice number `2-message encryption-<base64(key_id)>` as bytes
(`encrypted_message.py` lines 32–33, 60–61). -/
def invoice_number (key_id : List Nat) : List Nat :=
  invoiceHeader ++ b64encode key_id

/-- Modelled from the spec: one keystream byte of the external AEAD
cipher (AES-256-GCM of `Cryptodome`), counter mode over an abstract
pseudorandom function of key, IV and counter. -/
def ksByte (key iv : List Nat) (i : Nat) : Nat :=
  hmacModel (key ++ iv) (natToBE i) % 256

/-- Modelled from the spec: the CTR-mode body of the external AEAD cipher:
byte `i` of the message XORed with keystream byte `i`. -/
def ctrStream (key iv : List Nat) : Nat → List Nat → List Nat
  | _, [] => []
  | i, b :: rest => (b ^^^ ksByte key iv i) :: ctrStream key iv (i + 1) rest

/-- Modelled from the spec: the 16-byte (128-bit) authentication tag of
the external AEAD cipher over key, IV and ciphertext. -/
def authTagOf (key iv ct : List Nat) : List Nat :=
  (List.range 16).map (fun i => hmacModel (key ++ iv) (ct ++ [255, i]) % 256)

/-- `aes_gcm_encrypt` (`encrypted_message.py` lines 9–12): returns
`iv ‖ ciphertext ‖ auth_tag`.  The 32 random IV bytes drawn inside the
Python function are hoisted into the explicit argument `iv`. -/
def aes_gcm_encrypt (iv key message : List Nat) : List Nat :=
  let encrypted := ctrStream key iv 0 message
  iv ++ (encrypted ++ authTagOf key iv encrypted)

/-- `aes_gcm_decrypt` (`encrypted_message.py` lines 15–17): splits
`message[:32]`, `message[32:-16]`, `message[-16:]` and verifies the tag
before returning the decrypted bytes. -/
def aes_gcm_decrypt (key message : List Nat) : Except Err (List Nat) :=
  let iv := message.take 32
  let encrypted := (message.drop 32).take (message.length - 48)
  let auth_tag := message.drop (message.length - 16)
  if authTagOf key iv encrypted = auth_tag then .ok (ctrStream key iv 0 encrypted)
  else .error .macCheckFailed

/-- The envelope version constant (`encrypted_message.py` line 20):
`bytes.fromhex('42421033')`. -/
def VERSION : List Nat := [0x42, 0x42, 0x10, 0x33]

/-- `encrypt` (`encrypted_message.py` lines 23–39).  The 32 random
`key_id` bytes and the AEAD's 32 random IV bytes are hoisted into the
explicit arguments `key_id` and `iv`; `sender` is the sender's private
scalar and `recipientPub` the recipient's public point. -/
def encrypt (message key_id iv : List Nat) (sender recipientPub : Nat) : List Nat :=
  let inv := invoice_number key_id
  let sender_child := derive_child_private sender recipientPub inv
  let recipient_child := derive_child_public recipientPub sender inv
  let shared_secret := derive_shared_secret sender_child recipient_child
  let symmetric_key := shared_secret.drop 1
  VERSION ++ (point_serialize (public_key sender) ++ (point_serialize recipientPub ++
    (key_id ++ aes_gcm_encrypt iv symmetric_key message)))

/-- The body of the `try` block of `decrypt` (`encrypted_message.py`
lines 49–67): field slicing, version check, recipient check, child-key
re-derivation and AEAD decryption, each failure with its own error kind. -/
def decryptBody (message : List Nat) (recipient : Nat) : Except Err (List Nat) :=
  let version := message.take 4
  let sender_pubkey := (message.drop 4).take 33
  let recipient_pubkey := (message.drop 37).take 33
  let key_id := (message.drop 70).take 32
  let encrypted := message.drop 102
  if version = VERSION then
    if recipient_pubkey = point_serialize (public_key recipient) then
      let inv := invoice_number key_id
      match point_deserialize sender_pubkey with
      | .error e => .error e
      | .ok senderPt =>
        let sender_child := derive_child_public senderPt recipient inv
        let recipient_child := derive_child_private recipient senderPt inv
        let shared_secret := derive_shared_secret recipient_child sender_child
        let symmetric_key := shared_secret.drop 1
        aes_gcm_decrypt symmetric_key encrypted
    else .error (.recipientMismatch (point_serialize (public_key recipient)) recipient_pubkey)
  else .error (.versionMismatch version)

/-- `decrypt` (`encrypted_message.py` lines 42–69): the `try/except`
wrapper re-raising every internal failure as the single decrypt-failure
kind carrying the original cause. -/
def decrypt (message : List Nat) (recipient : Nat) : Except Err (List Nat) :=
  match decryptBody message recipient with
  | .ok m => .ok m
  | .error e => .error (.decryptFailed e)

theorem curveN_lt : curveN < 2 ^ 256 := by decide

theorem point_serialize_length (p : Nat) (h : p < 2 ^ 256) :
    (point_serialize p).length = 33 := by
  simp [point_serialize, be32_length p h]

theorem derive_shared_secret_length (a p : Nat) :
    (derive_shared_secret a p).length = 33 := by
  have : a * p % curveN < 2 ^ 256 :=
    lt_of_lt_of_le (Nat.mod_lt _ (by decide)) (le_of_lt curveN_lt)
  simpa [derive_shared_secret] using point_serialize_length _ this

theorem ctrStream_length (key iv : List Nat) (i : Nat) (m : List Nat) :
    (ctrStream key iv i m).length = m.length := by
  induction m generalizing i with
  | nil => rfl
  | cons b rest ih => simp [ctrStream, ih]

theorem ctrStream_ctrStream (key iv : List Nat) (i : Nat) (m : List Nat) :
    ctrStream key iv i (ctrStream key iv i m) = m := by
  induction m generalizing i with
  | nil => rfl
  | cons b rest ih =>
    simp [ctrStream, ih, Nat.xor_cancel_right]

theorem authTagOf_length (key iv ct : List Nat) : (authTagOf key iv ct).length = 16 := by
  simp [authTagOf]

/-- `aes_gcm_decrypt` inverts `aes_gcm_encrypt` at the same key and a
32-byte IV. -/
theorem aes_gcm_decrypt_encrypt (key iv m : List Nat) (hiv : iv.length = 32) :
    aes_gcm_decrypt key (aes_gcm_encrypt iv key m) = .ok m := by
  rw [aes_gcm_encrypt, aes_gcm_decrypt]
  have hlen : (iv ++ (ctrStream key iv 0 m ++ authTagOf key iv (ctrStream key iv 0 m))).length
      = m.length + 48 := by
    simp [ctrStream_length, authTagOf_length, hiv]
    omega
  rw [hlen]
  rw [List.take_left' hiv, List.drop_left' hiv]
  have hct : (ctrStream key iv 0 m).length = m.length := ctrStream_length key iv 0 m
  rw [show m.length + 48 - 48 = m.length from by omega,
    List.take_left' hct]
  rw [show iv ++ (ctrStream key iv 0 m ++ authTagOf key iv (ctrStream key iv 0 m))
      = (iv ++ ctrStream key iv 0 m) ++ authTagOf key iv (ctrStream key iv 0 m) from by
        simp [List.append_assoc],
    show m.length + 48 - 16 = m.length + 32 from by omega,
    List.drop_left' (by simp [hiv, hct]; omega)]
  rw [if_pos rfl, ctrStream_ctrStream]

/-- Parsing inverts the compressed serialization of a point of the
subgroup. -/
theorem point_deserialize_point_serialize (p : Nat) (h : p < curveN) :
    point_deserialize (point_serialize p) = .ok p := by
  have h256 : p < 2 ^ 256 := lt_trans h curveN_lt
  have hlen : (point_serialize p).length = 33 := point_serialize_length p h256
  have hdrop : (point_serialize p).drop 1 = be32 p := by
    simp [point_serialize]
  rw [point_deserialize, if_pos]
  · rw [hdrop, beToNat_be32]
  · refine ⟨hlen, ?_, ?_⟩
    · rw [hdrop, beToNat_be32]; rfl
    · rw [hdrop, beToNat_be32]; exact h

/-- The fixed-width fields of an envelope built like `encrypt`'s output,
as `decrypt` slices them. -/
theorem envelope_fields (sp rp kid payload env : List Nat)
    (henv : env = VERSION ++ (sp ++ (rp ++ (kid ++ payload))))
    (hsp : sp.length = 33) (hrp : rp.length = 33) (hkid : kid.length = 32) :
    env.take 4 = VERSION ∧ (env.drop 4).take 33 = sp ∧
    (env.drop 37).take 33 = rp ∧ (env.drop 70).take 32 = kid ∧
    env.drop 102 = payload := by
  subst henv
  refine ⟨List.take_left' rfl, ?_, ?_, ?_, ?_⟩
  · rw [List.drop_left' (show VERSION.length = 4 from rfl), List.take_left' hsp]
  · rw [show VERSION ++ (sp ++ (rp ++ (kid ++ payload)))
        = (VERSION ++ sp) ++ (rp ++ (kid ++ payload)) from by simp [List.append_assoc],
      List.drop_left' (by simp [VERSION, hsp]), List.take_left' hrp]
  · rw [show VERSION ++ (sp ++ (rp ++ (kid ++ payload)))
        = ((VERSION ++ sp) ++ rp) ++ (kid ++ payload) from by simp [List.append_assoc],
      List.drop_left' (by simp [VERSION, hsp, hrp]), List.take_left' hkid]
  · rw [show VERSION ++ (sp ++ (rp ++ (kid ++ payload)))
        = (((VERSION ++ sp) ++ rp) ++ kid) ++ payload from by simp [List.append_assoc],
      List.drop_left' (by simp [VERSION, hsp, hrp, hkid])]

/-- The scalar under the decrypt-side shared secret equals the scalar
under the encrypt-side shared secret: the modular product of the two
child keys is symmetric in the two parties. -/
theorem child_product_comm (a b H : Nat) :
    (b + H % curveN) % curveN * ((a % curveN + H % curveN) % curveN) % curveN
      = (a + H % curveN) % curveN * ((b % curveN + H % curveN) % curveN) % curveN := by
  have e1 : ∀ x : Nat, (x % curveN + H % curveN) % curveN = (x + H) % curveN := fun x =>
    (Nat.mod_modEq x curveN).add (Nat.mod_modEq H curveN)
  have e2 : ∀ x : Nat, (x + H % curveN) % curveN = (x + H) % curveN := fun x =>
    Nat.ModEq.add_left x (Nat.mod_modEq H curveN)
  rw [e1 a, e2 b, e1 b, e2 a, Nat.mul_comm]

/-- The two sides compute the same ECDH base secret: the sender pairs its
private scalar with the recipient's point, the recipient its private
scalar with the sender's point. -/
theorem base_secret_comm (a b : Nat) :
    derive_shared_secret b (public_key a) = derive_shared_secret a (public_key b) := by
  rw [derive_shared_secret, derive_shared_secret, public_key, public_key]
  rw [show b * (a % curveN) % curveN = b * a % curveN from
      (Nat.ModEq.mul_left b (Nat.mod_modEq a curveN)),
    show a * (b % curveN) % curveN = a * b % curveN from
      (Nat.ModEq.mul_left a (Nat.mod_modEq b curveN)),
    Nat.mul_comm]

theorem public_key_lt (x : Nat) : public_key x < curveN :=
  Nat.mod_lt x (by decide)

/-- The decrypt-side shared secret (recipient child private scalar paired
with the re-derived sender child point) equals the encrypt-side shared
secret (sender child private scalar paired with the recipient child
point). -/
theorem decrypt_shared_eq (a b : Nat) (inv : List Nat) :
    derive_shared_secret (derive_child_private b (public_key a) inv)
        (derive_child_public (public_key a) b inv)
      = derive_shared_secret (derive_child_private a (public_key b) inv)
        (derive_child_public (public_key b) a inv) := by
  rw [derive_child_private, derive_child_public, derive_child_private, derive_child_public]
  rw [base_secret_comm a b]
  simp only [derive_shared_secret, public_key]
  exact congrArg point_serialize (child_product_comm a b _)

/-- On an envelope produced by `encrypt` for recipient key pair
`(b, public_key b)`, the body of `decrypt` recovers the message. -/
theorem decryptBody_encrypt (m kid iv : List Nat) (a b : Nat)
    (hkid : kid.length = 32) (hiv : iv.length = 32) :
    decryptBody (encrypt m kid iv a (public_key b)) b = .ok m := by
  have hspl : (point_serialize (public_key a)).length = 33 :=
    point_serialize_length _ (lt_trans (public_key_lt a) curveN_lt)
  have hrpl : (point_serialize (public_key b)).length = 33 :=
    point_serialize_length _ (lt_trans (public_key_lt b) curveN_lt)
  obtain ⟨h1, h2, h3, h4, h5⟩ :=
    envelope_fields (point_serialize (public_key a)) (point_serialize (public_key b)) kid
      (aes_gcm_encrypt iv ((derive_shared_secret
          (derive_child_private a (public_key b) (invoice_number kid))
          (derive_child_public (public_key b) a (invoice_number kid))).drop 1) m)
      (encrypt m kid iv a (public_key b)) (by rw [encrypt]) hspl hrpl hkid
  rw [decryptBody, h1, h2, h3, h4, h5, if_pos rfl, if_pos rfl,
    point_deserialize_point_serialize _ (public_key_lt a)]
  show aes_gcm_decrypt ((derive_shared_secret
      (derive_child_private b (public_key a) (invoice_number kid))
      (derive_child_public (public_key a) b (invoice_number kid))).drop 1)
    (aes_gcm_encrypt iv ((derive_shared_secret
      (derive_child_private a (public_key b) (invoice_number kid))
      (derive_child_public (public_key b) a (invoice_number kid))).drop 1) m) = Except.ok m
  rw [decrypt_shared_eq a b (invoice_number kid)]
  exact aes_gcm_decrypt_encrypt _ iv m hiv

/-- C1: for every non-empty byte message `m`, every sender private key and
every recipient key pair `(b, public_key b)`, decrypting the encryption of
`m` with the recipient private key returns `m` (key id and IV are the
per-message random draws, 32 bytes each). -/
theorem C1_decrypt_encrypt_roundtrip (m kid iv : List Nat) (a b : Nat)
    (_hm : m ≠ []) (_ha1 : 1 ≤ a) (_ha2 : a ≤ curveN - 1)
    (_hb1 : 1 ≤ b) (_hb2 : b ≤ curveN - 1)
    (hkid : kid.length = 32) (hiv : iv.length = 32) :
    decrypt (encrypt m kid iv a (public_key b)) b = .ok m := by
  rw [decrypt, decryptBody_encrypt m kid iv a b hkid hiv]

theorem C1_witness :
    decrypt (encrypt [1, 2, 3] (List.replicate 32 0) (List.replicate 32 7) 5 (public_key 9)) 9
      = .ok [1, 2, 3] :=
  C1_decrypt_encrypt_roundtrip [1, 2, 3] (List.replicate 32 0) (List.replicate 32 7) 5 9
    (by decide) (by decide) (by decide) (by decide) (by decide) (by decide) (by decide)

/-- C2: `encrypt` emits exactly
`version(4, constant 0x42421033) ‖ senderPubKey(33) ‖ recipientPubKey(33)
‖ keyID(32) ‖ iv(32) ‖ ciphertext(|m|) ‖ authTag(16)` in that order. -/
theorem C2_envelope_layout (m kid iv : List Nat) (a p : Nat)
    (hp : p < curveN) (hkid : kid.length = 32) (hiv : iv.length = 32) :
    ∃ ct tag : List Nat,
      encrypt m kid iv a p
        = VERSION ++ (point_serialize (public_key a) ++ (point_serialize p ++
            (kid ++ (iv ++ (ct ++ tag)))))
      ∧ VERSION = [0x42, 0x42, 0x10, 0x33]
      ∧ (point_serialize (public_key a)).length = 33
      ∧ (point_serialize p).length = 33
      ∧ kid.length = 32 ∧ iv.length = 32
      ∧ ct.length = m.length ∧ tag.length = 16 := by
  refine ⟨ctrStream ((derive_shared_secret
      (derive_child_private a p (invoice_number kid))
      (derive_child_public p a (invoice_number kid))).drop 1) iv 0 m,
    authTagOf ((derive_shared_secret
      (derive_child_private a p (invoice_number kid))
      (derive_child_public p a (invoice_number kid))).drop 1) iv
      (ctrStream ((derive_shared_secret
        (derive_child_private a p (invoice_number kid))
        (derive_child_public p a (invoice_number kid))).drop 1) iv 0 m),
    rfl, rfl,
    point_serialize_length _ (lt_trans (public_key_lt a) curveN_lt),
    point_serialize_length _ (lt_trans hp curveN_lt),
    hkid, hiv, ctrStream_length _ _ _ _, authTagOf_length _ _ _⟩

theorem C2_witness :
    ∃ ct tag : List Nat,
      encrypt [5] (List.replicate 32 1) (List.replicate 32 2) 3 4
        = VERSION ++ (point_serialize (public_key 3) ++ (point_serialize 4 ++
            (List.replicate 32 1 ++ (List.replicate 32 2 ++ (ct ++ tag)))))
      ∧ VERSION = [0x42, 0x42, 0x10, 0x33]
      ∧ (point_serialize (public_key 3)).length = 33
      ∧ (point_serialize 4).length = 33
      ∧ (List.replicate 32 1).length = 32 ∧ (List.replicate 32 2).length = 32
      ∧ ct.length = ([5] : List Nat).length ∧ tag.length = 16 :=
  C2_envelope_layout [5] (List.replicate 32 1) (List.replicate 32 2) 3 4
    (by decide) (by decide) (by decide)

/-- C10: the envelope is exactly 150 bytes longer than the message, for
every message including the empty one: a 102-byte header plus 32-byte IV
and 16-byte tag around a ciphertext of the message's length. -/
theorem C10_envelope_length (m kid iv : List Nat) (a p : Nat)
    (hp : p < curveN) (hkid : kid.length = 32) (hiv : iv.length = 32) :
    (encrypt m kid iv a p).length = m.length + 150 := by
  simp [encrypt, aes_gcm_encrypt, VERSION, List.length_append,
    point_serialize_length _ (lt_trans (public_key_lt a) curveN_lt),
    point_serialize_length _ (lt_trans hp curveN_lt),
    hkid, hiv, ctrStream_length, authTagOf_length]
  omega

theorem C10_witness :
    (encrypt [] (List.replicate 32 1) (List.replicate 32 2) 3 4).length
      = ([] : List Nat).length + 150 :=
  C10_envelope_length [] (List.replicate 32 1) (List.replicate 32 2) 3 4
    (by decide) (by decide) (by decide)

/-- C3: any input whose first 4 bytes differ from the version constant
makes `decrypt` fail, for every recipient private key, with the version
mismatch as the wrapped cause. -/
theorem C3_version_mismatch (msg : List Nat) (c : Nat) (h : msg.take 4 ≠ VERSION) :
    decrypt msg c = .error (.decryptFailed (.versionMismatch (msg.take 4))) := by
  have hbody : decryptBody msg c = .error (.versionMismatch (msg.take 4)) := by
    simp only [decryptBody]
    rw [if_neg h]
  rw [decrypt, hbody]

theorem C3_witness :
    decrypt [0, 0, 0, 0] 5 = .error (.decryptFailed (.versionMismatch [0, 0, 0, 0])) :=
  C3_version_mismatch [0, 0, 0, 0] 5 (by decide)

/-- C4: on a well-formed envelope produced by `encrypt` for recipient
point `p`, any recipient private key whose public key differs from the
embedded recipient public key makes `decrypt` fail with the recipient
mismatch as the wrapped cause, never returning a plaintext. -/
theorem C4_recipient_mismatch (m kid iv : List Nat) (a p c : Nat)
    (hp : p < curveN) (hkid : kid.length = 32) (_hiv : iv.length = 32)
    (hne : point_serialize (public_key c) ≠ point_serialize p) :
    decrypt (encrypt m kid iv a p) c
      = .error (.decryptFailed
          (.recipientMismatch (point_serialize (public_key c)) (point_serialize p))) := by
  have hspl : (point_serialize (public_key a)).length = 33 :=
    point_serialize_length _ (lt_trans (public_key_lt a) curveN_lt)
  have hrpl : (point_serialize p).length = 33 :=
    point_serialize_length _ (lt_trans hp curveN_lt)
  obtain ⟨h1, h2, h3, h4, h5⟩ :=
    envelope_fields (point_serialize (public_key a)) (point_serialize p) kid
      (aes_gcm_encrypt iv ((derive_shared_secret
          (derive_child_private a p (invoice_number kid))
          (derive_child_public p a (invoice_number kid))).drop 1) m)
      (encrypt m kid iv a p) (by rw [encrypt]) hspl hrpl hkid
  have hbody : decryptBody (encrypt m kid iv a p) c
      = .error (.recipientMismatch (point_serialize (public_key c)) (point_serialize p)) := by
    rw [decryptBody, h1, h3, if_pos rfl, if_neg (Ne.symm hne)]
  rw [decrypt, hbody]

theorem C4_witness :
    decrypt (encrypt [1] (List.replicate 32 0) (List.replicate 32 0) 2 9) 3
      = .error (.decryptFailed
          (.recipientMismatch (point_serialize (public_key 3)) (point_serialize 9))) :=
  C4_recipient_mismatch [1] (List.replicate 32 0) (List.replicate 32 0) 2 9 3
    (by decide) (by decide) (by decide) (by decide)

/-- C5: every failure inside `decrypt` surfaces as the single
decrypt-failure kind wrapping the original cause produced by the body;
`decrypt` never returns an error of any other shape. -/
theorem C5_single_error_kind (msg : List Nat) (c : Nat) :
    (∃ r, decrypt msg c = .ok r) ∨
    (∃ e, decrypt msg c = .error (.decryptFailed e) ∧ decryptBody msg c = .error e) := by
  cases h : decryptBody msg c with
  | error e =>
    refine Or.inr ⟨e, ?_, rfl⟩
    rw [decrypt, h]
  | ok r =>
    refine Or.inl ⟨r, ?_⟩
    rw [decrypt, h]

/-- C6: in `encrypt` the AEAD symmetric key is bytes `[1:]` (32 bytes) of
the 33-byte compressed ECDH shared secret of the derived child keys for
the invoice number built from the key id, and in `decrypt` (on a
well-formed envelope) the AEAD call likewise receives bytes `[1:]` of the
33-byte re-derived shared secret; the parity byte is dropped on both
sides. -/
theorem C6_symmetric_key (m kid iv : List Nat) (a b p : Nat)
    (_hp : p < curveN) (_hkid : kid.length = 32) (_hiv : iv.length = 32) :
    (encrypt m kid iv a p
        = VERSION ++ (point_serialize (public_key a) ++ (point_serialize p ++ (kid ++
            aes_gcm_encrypt iv ((derive_shared_secret
              (derive_child_private a p (invoice_number kid))
              (derive_child_public p a (invoice_number kid))).drop 1) m)))
      ∧ (derive_shared_secret (derive_child_private a p (invoice_number kid))
          (derive_child_public p a (invoice_number kid))).length = 33
      ∧ ((derive_shared_secret (derive_child_private a p (invoice_number kid))
          (derive_child_public p a (invoice_number kid))).drop 1).length = 32)
    ∧ (decryptBody (encrypt m kid iv a (public_key b)) b
        = aes_gcm_decrypt ((derive_shared_secret
            (derive_child_private b (public_key a) (invoice_number kid))
            (derive_child_public (public_key a) b (invoice_number kid))).drop 1)
            ((encrypt m kid iv a (public_key b)).drop 102)
      ∧ (derive_shared_secret (derive_child_private b (public_key a) (invoice_number kid))
          (derive_child_public (public_key a) b (invoice_number kid))).length = 33
      ∧ ((derive_shared_secret (derive_child_private b (public_key a) (invoice_number kid))
          (derive_child_public (public_key a) b (invoice_number kid))).drop 1).length = 32) := by
  have hsslen : ∀ x y : Nat, (derive_shared_secret x y).length = 33 :=
    fun x y => derive_shared_secret_length x y
  have hdroplen : ∀ x y : Nat, ((derive_shared_secret x y).drop 1).length = 32 := by
    intro x y
    simp [List.length_drop, hsslen x y]
  refine ⟨⟨rfl, hsslen _ _, hdroplen _ _⟩, ?_, hsslen _ _, hdroplen _ _⟩
  have hspl : (point_serialize (public_key a)).length = 33 :=
    point_serialize_length _ (lt_trans (public_key_lt a) curveN_lt)
  have hrpl : (point_serialize (public_key b)).length = 33 :=
    point_serialize_length _ (lt_trans (public_key_lt b) curveN_lt)
  obtain ⟨h1, h2, h3, h4, h5⟩ :=
    envelope_fields (point_serialize (public_key a)) (point_serialize (public_key b)) kid
      (aes_gcm_encrypt iv ((derive_shared_secret
          (derive_child_private a (public_key b) (invoice_number kid))
          (derive_child_public (public_key b) a (invoice_number kid))).drop 1) m)
      (encrypt m kid iv a (public_key b)) (by rw [encrypt]) hspl hrpl
      (by assumption)
  rw [decryptBody, h1, h2, h3, h4, if_pos rfl, if_pos rfl,
    point_deserialize_point_serialize _ (public_key_lt a)]

theorem C6_witness :
    (encrypt [9] (List.replicate 32 0) (List.replicate 32 0) 2 5
        = VERSION ++ (point_serialize (public_key 2) ++ (point_serialize 5 ++
            (List.replicate 32 0 ++
            aes_gcm_encrypt (List.replicate 32 0) ((derive_shared_secret
              (derive_child_private 2 5 (invoice_number (List.replicate 32 0)))
              (derive_child_public 5 2 (invoice_number (List.replicate 32 0)))).drop 1) [9])))
      ∧ (derive_shared_secret (derive_child_private 2 5 (invoice_number (List.replicate 32 0)))
          (derive_child_public 5 2 (invoice_number (List.replicate 32 0)))).length = 33
      ∧ ((derive_shared_secret (derive_child_private 2 5 (invoice_number (List.replicate 32 0)))
          (derive_child_public 5 2 (invoice_number (List.replicate 32 0)))).drop 1).length = 32)
    ∧ (decryptBody (encrypt [9] (List.replicate 32 0) (List.replicate 32 0) 2 (public_key 7)) 7
        = aes_gcm_decrypt ((derive_shared_secret
            (derive_child_private 7 (public_key 2) (invoice_number (List.replicate 32 0)))
            (derive_child_public (public_key 2) 7 (invoice_number (List.replicate 32 0)))).drop 1)
            ((encrypt [9] (List.replicate 32 0) (List.replicate 32 0) 2 (public_key 7)).drop 102)
      ∧ (derive_shared_secret (derive_child_private 7 (public_key 2) (invoice_number (List.replicate 32 0)))
          (derive_child_public (public_key 2) 7 (invoice_number (List.replicate 32 0)))).length = 33
      ∧ ((derive_shared_secret (derive_child_private 7 (public_key 2) (invoice_number (List.replicate 32 0)))
          (derive_child_public (public_key 2) 7 (invoice_number (List.replicate 32 0)))).drop 1).length = 32) :=
  C6_symmetric_key [9] (List.replicate 32 0) (List.replicate 32 0) 2 7 5
    (by decide) (by decide) (by decide)

/-- Modelled from the spec: little-endian fixed-width byte encoding,
`int.to_bytes(width, 'little')`. -/
def leBytes (width n : Nat) : List Nat :=
  (List.range width).map (fun i => n / 256 ^ i % 256)

/-- Modelled from the spec: `unsigned_to_varint` of `bsv.utils` (not under
src): the CompactSize rule, raising `OverflowError` (the spec's
RangeError) for negative input or input above the 64-bit unsigned
range. -/
def unsigned_to_varint (n : Int) : Except Err (List Nat) :=
  if n < 0 ∨ 0xFFFFFFFFFFFFFFFF < n then .error .overflowError
  else
    let m := n.toNat
    if m < 0xfd then .ok [m]
    else if m ≤ 0xffff then .ok (0xfd :: leBytes 2 m)
    else if m ≤ 0xffffffff then .ok (0xfe :: leBytes 4 m)
    else .ok (0xff :: leBytes 8 m)

/-- The assertions of `test_unsigned_to_varint` (`tests/test_utils.py`
lines 14–30). -/
theorem test_unsigned_to_varint :
    unsigned_to_varint 0 = .ok [0x00]
    ∧ unsigned_to_varint 0xfc = .ok [0xfc]
    ∧ unsigned_to_varint 0xfd = .ok [0xfd, 0xfd, 0x00]
    ∧ unsigned_to_varint 0xabcd = .ok [0xfd, 0xcd, 0xab]
    ∧ unsigned_to_varint 0x010000 = .ok [0xfe, 0x00, 0x00, 0x01, 0x00]
    ∧ unsigned_to_varint 0x12345678 = .ok [0xfe, 0x78, 0x56, 0x34, 0x12]
    ∧ unsigned_to_varint 0x0100000000 = .ok [0xff, 0x00, 0x00, 0x00, 0x00, 0x01, 0x00, 0x00, 0x00]
    ∧ unsigned_to_varint 0x1234567890abcdef = .ok [0xff, 0xef, 0xcd, 0xab, 0x90, 0x78, 0x56, 0x34, 0x12]
    ∧ unsigned_to_varint (-1) = .error .overflowError
    ∧ unsigned_to_varint 0x010000000000000000 = .error .overflowError := by
  decide

/-- C7: the varint encoder follows the CompactSize rule in all four
ranges, matches the literal vectors of the spec, and fails with the
range/overflow error outside the 64-bit unsigned range. -/
theorem C7_varint_compactsize :
    (∀ n : Int, 0 ≤ n → n < 0xfd → unsigned_to_varint n = .ok [n.toNat])
    ∧ (∀ n : Int, 0xfd ≤ n → n ≤ 0xffff →
        unsigned_to_varint n = .ok (0xfd :: leBytes 2 n.toNat))
    ∧ (∀ n : Int, 0xffff < n → n ≤ 0xffffffff →
        unsigned_to_varint n = .ok (0xfe :: leBytes 4 n.toNat))
    ∧ (∀ n : Int, 0xffffffff < n → n ≤ 0xFFFFFFFFFFFFFFFF →
        unsigned_to_varint n = .ok (0xff :: leBytes 8 n.toNat))
    ∧ unsigned_to_varint 0xfd = .ok [0xfd, 0xfd, 0x00]
    ∧ unsigned_to_varint 0x12345678 = .ok [0xfe, 0x78, 0x56, 0x34, 0x12]
    ∧ (∀ n : Int, n < 0 → unsigned_to_varint n = .error .overflowError)
    ∧ (∀ n : Int, 0xFFFFFFFFFFFFFFFF < n →
        unsigned_to_varint n = .error .overflowError) := by
  refine ⟨?_, ?_, ?_, ?_, by decide, by decide, ?_, ?_⟩
  · intro n h0 h1
    rw [unsigned_to_varint, if_neg (by omega), if_pos (by omega)]
  · intro n h0 h1
    rw [unsigned_to_varint, if_neg (by omega), if_neg (by omega), if_pos (by omega)]
  · intro n h0 h1
    rw [unsigned_to_varint, if_neg (by omega), if_neg (by omega), if_neg (by omega),
      if_pos (by omega)]
  · intro n h0 h1
    rw [unsigned_to_varint, if_neg (by omega), if_neg (by omega), if_neg (by omega),
      if_neg (by omega)]
  · intro n h
    rw [unsigned_to_varint, if_pos (Or.inl h)]
  · intro n h
    rw [unsigned_to_varint, if_pos (Or.inr h)]

theorem C7_witness :
    unsigned_to_varint 5 = .ok [(5 : Int).toNat]
    ∧ unsigned_to_varint 300 = .ok (0xfd :: leBytes 2 (300 : Int).toNat)
    ∧ unsigned_to_varint 0x20000 = .ok (0xfe :: leBytes 4 ((0x20000 : Int)).toNat)
    ∧ unsigned_to_varint 0x200000000 = .ok (0xff :: leBytes 8 ((0x200000000 : Int)).toNat)
    ∧ unsigned_to_varint (-3) = .error .overflowError
    ∧ unsigned_to_varint 0x10000000000000000 = .error .overflowError :=
  ⟨C7_varint_compactsize.1 5 (by decide) (by decide),
   C7_varint_compactsize.2.1 300 (by decide) (by decide),
   C7_varint_compactsize.2.2.1 0x20000 (by decide) (by decide),
   C7_varint_compactsize.2.2.2.1 0x200000000 (by decide) (by decide),
   C7_varint_compactsize.2.2.2.2.2.2.1 (-3) (by decide),
   C7_varint_compactsize.2.2.2.2.2.2.2 0x10000000000000000 (by decide)⟩

/-- Modelled from the spec: the low-s canonicalization of the DER encoder
(`bsv.utils`, not under src): if `s > n/2`, substitute `n - s` before
encoding. -/
def lowS (s : Nat) : Nat := if curveN < 2 * s then curveN - s else s

/-- Modelled from the spec: the canonical DER INTEGER body of a positive
integer: minimal big-endian bytes, prefixed with `0x00` when the top bit
is set so the value stays non-negative. -/
def serialize_der_int (x : Nat) : List Nat :=
  if 0x80 ≤ (natToBE x).headD 0 then 0 :: natToBE x else natToBE x

/-- Modelled from the spec: `serialize_ecdsa_der` of `bsv.utils` (not
under src): `SEQUENCE { INTEGER r, INTEGER s }` with single-byte lengths
and the low-s form of `s`. -/
def serialize_ecdsa_der (r s : Nat) : List Nat :=
  0x30 :: ((serialize_der_int r).length + (serialize_der_int (lowS s)).length + 4) ::
  0x02 :: (serialize_der_int r).length ::
  (serialize_der_int r ++ 0x02 :: (serialize_der_int (lowS s)).length ::
    serialize_der_int (lowS s))

/-- Modelled from the spec: `deserialize_ecdsa_der` of `bsv.utils` (not
under src): a strict parser validating the SEQUENCE tag, the outer
length, both INTEGER tags and both lengths against the consumed bytes,
failing (Python `ValueError('invalid DER encoded')`) on any structural
mismatch including empty input. -/
def deserialize_ecdsa_der (bs : List Nat) : Except Err (Nat × Nat) :=
  match bs with
  | t0 :: total :: t1 :: rlen :: rest =>
      if t0 = 0x30 ∧ t1 = 0x02 ∧ total = rest.length + 2 ∧ rlen ≤ rest.length then
        match rest.drop rlen with
        | t2 :: slen :: srest =>
            if t2 = 0x02 ∧ slen = srest.length then
              .ok (beToNat (rest.take rlen), beToNat srest)
            else .error .invalidDerEncoded
        | _ => .error .invalidDerEncoded
      else .error .invalidDerEncoded
  | _ => .error .invalidDerEncoded

theorem beToNat_cons_zero (l : List Nat) : beToNat (0 :: l) = beToNat l := by
  simp [beToNat]

theorem beToNat_serialize_der_int (x : Nat) : beToNat (serialize_der_int x) = x := by
  rw [serialize_der_int]
  split
  · rw [beToNat_cons_zero, beToNat_natToBE]
  · exact beToNat_natToBE x

/-- The strict DER parser recovers the two integer bodies from the exact
layout the encoder emits. -/
theorem deserialize_der_parts (rb sb : List Nat) :
    deserialize_ecdsa_der (0x30 :: (rb.length + sb.length + 4) :: 0x02 :: rb.length ::
      (rb ++ 0x02 :: sb.length :: sb)) = .ok (beToNat rb, beToNat sb) := by
  simp only [deserialize_ecdsa_der]
  rw [if_pos ⟨trivial, trivial, by simp [List.length_append]; omega,
    by simp [List.length_append]⟩]
  rw [List.drop_left' rfl]
  simp only []
  rw [if_pos ⟨trivial, trivial⟩, List.take_left' rfl]

/-- Decoding the encoding returns `r` with the canonical low `s`. -/
theorem deserialize_serialize_der (r s : Nat) :
    deserialize_ecdsa_der (serialize_ecdsa_der r s) = .ok (r, lowS s) := by
  rw [serialize_ecdsa_der, deserialize_der_parts, beToNat_serialize_der_int,
    beToNat_serialize_der_int]

/-- The low-s form is invariant under `s ↦ n - s`. -/
theorem lowS_sub (s : Nat) (h1 : 1 ≤ s) (_h2 : s ≤ curveN - 1) :
    lowS (curveN - s) = lowS s := by
  have hodd : curveN % 2 = 1 := by decide
  have hpos : 0 < curveN := by decide
  rw [lowS, lowS]
  split_ifs <;> omega

/-- C8: for valid `(r, s)` the DER encoder emits identical bytes for
`(r, s)` and `(r, n - s)` (always the low-s form), and decoding the
encoding returns `r` with the canonical (low) `s`. -/
theorem C8_der_canonical (r s : Nat) (_hr1 : 1 ≤ r) (_hr2 : r ≤ curveN - 1)
    (hs1 : 1 ≤ s) (hs2 : s ≤ curveN - 1) :
    serialize_ecdsa_der r s = serialize_ecdsa_der r (curveN - s)
    ∧ deserialize_ecdsa_der (serialize_ecdsa_der r s) = .ok (r, lowS s) := by
  constructor
  · rw [serialize_ecdsa_der, serialize_ecdsa_der, lowS_sub s hs1 hs2]
  · exact deserialize_serialize_der r s

theorem C8_witness :
    serialize_ecdsa_der 5 7 = serialize_ecdsa_der 5 (curveN - 7)
    ∧ deserialize_ecdsa_der (serialize_ecdsa_der 5 7) = .ok (5, lowS 7) :=
  C8_der_canonical 5 7 (by decide) (by decide) (by decide) (by decide)

theorem b64charVal_b64char : ∀ v : Nat, v < 64 → b64charVal (b64char v) = v := by
  decide

theorem b64char_ne_pad : ∀ v : Nat, v < 64 → b64char v ≠ 61 := by
  decide

/-- Decoding inverts base64 encoding on byte strings. -/
theorem b64decode_b64encode :
    ∀ l : List Nat, (∀ x ∈ l, x < 256) → b64decode (b64encode l) = l
  | [] => fun _ => rfl
  | [a] => fun h => by
      have ha : a < 256 := h a (by simp)
      have e1 : b64charVal (b64char (a / 4)) = a / 4 := b64charVal_b64char _ (by omega)
      have e2 : b64charVal (b64char (a % 4 * 16)) = a % 4 * 16 :=
        b64charVal_b64char _ (by omega)
      simp [b64encode, b64decode, e1, e2]
      omega
  | [a, b] => fun h => by
      have ha : a < 256 := h a (by simp)
      have hb : b < 256 := h b (by simp)
      have e1 : b64charVal (b64char (a / 4)) = a / 4 := b64charVal_b64char _ (by omega)
      have e2 : b64charVal (b64char (a % 4 * 16 + b / 16)) = a % 4 * 16 + b / 16 :=
        b64charVal_b64char _ (by omega)
      have e3 : b64charVal (b64char (b % 16 * 4)) = b % 16 * 4 :=
        b64charVal_b64char _ (by omega)
      have ne3 : b64char (b % 16 * 4) ≠ 61 := b64char_ne_pad _ (by omega)
      simp [b64encode, b64decode, e1, e2, e3, ne3]
      omega
  | a :: b :: d :: rest => fun h => by
      have ha : a < 256 := h a (by simp)
      have hb : b < 256 := h b (by simp)
      have hd : d < 256 := h d (by simp)
      have ih : b64decode (b64encode rest) = rest :=
        b64decode_b64encode rest (fun x hx => h x (by simp [hx]))
      have e1 : b64charVal (b64char (a / 4)) = a / 4 := b64charVal_b64char _ (by omega)
      have e2 : b64charVal (b64char (a % 4 * 16 + b / 16)) = a % 4 * 16 + b / 16 :=
        b64charVal_b64char _ (by omega)
      have e3 : b64charVal (b64char (b % 16 * 4 + d / 64)) = b % 16 * 4 + d / 64 :=
        b64charVal_b64char _ (by omega)
      have e4 : b64charVal (b64char (d % 64)) = d % 64 := b64charVal_b64char _ (by omega)
      have ne3 : b64char (b % 16 * 4 + d / 64) ≠ 61 := b64char_ne_pad _ (by omega)
      have ne4 : b64char (d % 64) ≠ 61 := b64char_ne_pad _ (by omega)
      simp [b64encode, b64decode, e1, e2, e3, e4, ne3, ne4, ih]
      omega

/-- Modelled from the spec: `serialize_ecdsa_recoverable` of `bsv.utils`
(not under src): the 65-byte compact recoverable form
`marker(1) ‖ r(32, big-endian) ‖ s(32, big-endian)` with
`marker = 27 + recovery_id` (the compression flag is carried alongside,
not inside the compact form, and is added to the marker only by
`stringify`). -/
def serialize_ecdsa_recoverable (r s rec : Nat) : List Nat :=
  (27 + rec) :: (be32 r ++ be32 s)

/-- Modelled from the spec: `deserialize_ecdsa_recoverable` of
`bsv.utils` (not under src): validates the 65-byte length and the marker
range `27..34`, extracts `recovery_id` and the two 32-byte big-endian
integers. -/
def deserialize_ecdsa_recoverable (bs : List Nat) : Except Err (Nat × Nat × Nat) :=
  if bs.length = 65 then
    if 27 ≤ bs.headD 0 ∧ bs.headD 0 < 35 then
      .ok (beToNat ((bs.drop 1).take 32), beToNat (bs.drop 33),
        (if 31 ≤ bs.headD 0 then bs.headD 0 - 4 else bs.headD 0) - 27)
    else .error .invalidSigMarker
  else .error .invalidSigLength

/-- Modelled from the spec: `stringify_ecdsa_recoverable` of `bsv.utils`
(not under src): base64 of the compact form with the compression offset
(`+ 4 if compressed`) folded into the marker byte. -/
def stringify_ecdsa_recoverable (bs : List Nat) (compressed : Bool) : List Nat :=
  match bs with
  | m :: rest => b64encode ((if compressed then m + 4 else m) :: rest)
  | [] => b64encode []

/-- Modelled from the spec: `unstringify_ecdsa_recoverable` of
`bsv.utils` (not under src): base64-decode, validate the 65-byte length
and the marker range, split the compression flag out of the marker and
return the compact bytes together with the flag. -/
def unstringify_ecdsa_recoverable (s : List Nat) : Except Err (List Nat × Bool) :=
  if (b64decode s).length = 65 then
    if 27 ≤ (b64decode s).headD 0 ∧ (b64decode s).headD 0 < 35 then
      .ok ((if 31 ≤ (b64decode s).headD 0 then (b64decode s).headD 0 - 4
            else (b64decode s).headD 0) :: (b64decode s).tail,
        decide (31 ≤ (b64decode s).headD 0))
    else .error .invalidSigMarker
  else .error .invalidSigLength

/-- ASCII codes of a string literal. -/
def strBytes (s : String) : List Nat := s.toList.map (fun c => c.toNat)

/-- Deserialization inverts serialization of recoverable signatures. -/
theorem deserialize_serialize_recoverable (r s rec : Nat) (hrec : rec ≤ 3)
    (hr : r < 2 ^ 256) (hs : s < 2 ^ 256) :
    deserialize_ecdsa_recoverable (serialize_ecdsa_recoverable r s rec) = .ok (r, s, rec) := by
  have hbr := be32_length r hr
  have hbs := be32_length s hs
  rw [serialize_ecdsa_recoverable, deserialize_ecdsa_recoverable]
  rw [if_pos (by simp [hbr, hbs])]
  simp only [List.headD_cons]
  rw [if_pos (by omega), if_neg (by omega)]
  rw [show (((27 + rec) :: (be32 r ++ be32 s)) : List Nat).drop 1 = be32 r ++ be32 s from rfl,
    show (((27 + rec) :: (be32 r ++ be32 s)) : List Nat).drop 33 = (be32 r ++ be32 s).drop 32
      from rfl,
    List.take_left' hbr, List.drop_left' hbr, beToNat_be32, beToNat_be32]
  simp

/-- `unstringify` inverts `stringify` on well-formed compact bytes,
recovering the same 65 bytes and the compression flag. -/
theorem unstringify_stringify (m : Nat) (rest : List Nat) (c : Bool)
    (h27 : 27 ≤ m) (h30 : m ≤ 30) (hlen : rest.length = 64)
    (hbytes : ∀ x ∈ rest, x < 256) :
    unstringify_ecdsa_recoverable (stringify_ecdsa_recoverable (m :: rest) c)
      = .ok (m :: rest, c) := by
  cases c with
  | false =>
    have hrt : b64decode (b64encode (m :: rest)) = m :: rest := by
      refine b64decode_b64encode _ ?_
      intro x hx
      rcases List.mem_cons.mp hx with hx | hx
      · subst hx; omega
      · exact hbytes x hx
    rw [stringify_ecdsa_recoverable,
      show (if (false : Bool) = true then m + 4 else m) = m from if_neg (by simp),
      unstringify_ecdsa_recoverable, hrt]
    rw [if_pos (by simp [hlen])]
    simp only [List.headD_cons, List.tail_cons]
    rw [if_pos (by omega), if_neg (by omega), decide_eq_false (by omega : ¬31 ≤ m)]
  | true =>
    have hrt : b64decode (b64encode ((m + 4) :: rest)) = (m + 4) :: rest := by
      refine b64decode_b64encode _ ?_
      intro x hx
      rcases List.mem_cons.mp hx with hx | hx
      · subst hx; omega
      · exact hbytes x hx
    rw [stringify_ecdsa_recoverable,
      show (if (true : Bool) = true then m + 4 else m) = m + 4 from if_pos rfl,
      unstringify_ecdsa_recoverable, hrt]
    rw [if_pos (by simp [hlen])]
    simp only [List.headD_cons, List.tail_cons]
    rw [if_pos (by omega), if_pos (by omega), decide_eq_true (by omega : 31 ≤ m + 4)]
    simp [show m + 4 - 4 = m from by omega]

/-- C9: for every recoverable signature `(r, s, rec)` with
`rec ∈ {0,1,2,3}`, serializing to the 65-byte compact form and
deserializing returns `(r, s, rec)`; and the base64
stringify/unstringify round trip preserves the 65 bytes and the
compression flag (the `+ 4 if compressed` offset lives in the
stringified marker byte `27 + recovery_id + 4`). -/
theorem C9_recoverable_roundtrip :
    (∀ r s rec : Nat, rec ≤ 3 → r < 2 ^ 256 → s < 2 ^ 256 →
      deserialize_ecdsa_recoverable (serialize_ecdsa_recoverable r s rec) = .ok (r, s, rec))
    ∧ (∀ (m : Nat) (rest : List Nat) (c : Bool), 27 ≤ m → m ≤ 30 →
      rest.length = 64 → (∀ x ∈ rest, x < 256) →
      unstringify_ecdsa_recoverable (stringify_ecdsa_recoverable (m :: rest) c)
        = .ok (m :: rest, c)) :=
  ⟨deserialize_serialize_recoverable, unstringify_stringify⟩

theorem C9_witness :
    deserialize_ecdsa_recoverable (serialize_ecdsa_recoverable 10 11 2) = .ok (10, 11, 2)
    ∧ unstringify_ecdsa_recoverable
        (stringify_ecdsa_recoverable (28 :: List.replicate 64 5) true)
      = .ok (28 :: List.replicate 64 5, true) :=
  ⟨C9_recoverable_roundtrip.1 10 11 2 (by decide) (by decide) (by decide),
   C9_recoverable_roundtrip.2 28 (List.replicate 64 5) true (by decide) (by decide)
     (by decide) (by decide)⟩

/-- The assertions of `test_der_serialization` (`tests/test_utils.py`
lines 91–117): the three literal DER vectors, each produced both from
`(r, s)` and from `(r, n - s)`, the two decode assertions, and the empty
input failure. -/
theorem test_der_serialization :
    serialize_ecdsa_der 114587593887127314608220924841831336233967095853165151956820984900193959037698 24000727837347392504013031837120627225728348681623127776947626422811445180558
      = [0x30, 0x45, 0x02, 0x21, 0x00, 0xfd, 0x56, 0x47, 0xa0, 0x62, 0xd4, 0x2c, 0xdd, 0xe9, 0x75, 0xad, 0x47, 0x96, 0xce, 0xfd, 0x6b, 0x56, 0x13, 0xe7, 0x31, 0xc0, 0x8e, 0x0f, 0xb6, 0x90, 0x7f, 0x75, 0x7a, 0x60, 0xf4, 0x4b, 0x02, 0x02, 0x20, 0x35, 0x0f, 0xee, 0x39, 0x27, 0x13, 0x42, 0x3e, 0xbf, 0xcd, 0x80, 0x26, 0xea, 0x29, 0xcc, 0x95, 0x91, 0x7d, 0x82, 0x33, 0x92, 0xf0, 0x7c, 0xd6, 0xc8, 0x0f, 0x46, 0x71, 0x26, 0x50, 0x38, 0x8e]
    ∧ serialize_ecdsa_der 114587593887127314608220924841831336233967095853165151956820984900193959037698 (curveN - 24000727837347392504013031837120627225728348681623127776947626422811445180558)
      = [0x30, 0x45, 0x02, 0x21, 0x00, 0xfd, 0x56, 0x47, 0xa0, 0x62, 0xd4, 0x2c, 0xdd, 0xe9, 0x75, 0xad, 0x47, 0x96, 0xce, 0xfd, 0x6b, 0x56, 0x13, 0xe7, 0x31, 0xc0, 0x8e, 0x0f, 0xb6, 0x90, 0x7f, 0x75, 0x7a, 0x60, 0xf4, 0x4b, 0x02, 0x02, 0x20, 0x35, 0x0f, 0xee, 0x39, 0x27, 0x13, 0x42, 0x3e, 0xbf, 0xcd, 0x80, 0x26, 0xea, 0x29, 0xcc, 0x95, 0x91, 0x7d, 0x82, 0x33, 0x92, 0xf0, 0x7c, 0xd6, 0xc8, 0x0f, 0x46, 0x71, 0x26, 0x50, 0x38, 0x8e]
    ∧ serialize_ecdsa_der 57069924365784604413146650701306419944030991562754207986153667089859857018394 11615408348402409164215774430388304177694127390766203039231142052414850779557
      = [0x30, 0x44, 0x02, 0x20, 0x7e, 0x2c, 0x6e, 0xb8, 0xc4, 0xb2, 0x0e, 0x25, 0x1a, 0x71, 0xc5, 0x80, 0x37, 0x3a, 0x28, 0x36, 0xe2, 0x09, 0xc5, 0x07, 0x26, 0xe5, 0xf8, 0xb0, 0xf4, 0xf5, 0x9f, 0x8a, 0xf0, 0x0e, 0xee, 0x1a, 0x02, 0x20, 0x19, 0xae, 0x16, 0x90, 0xe2, 0xeb, 0x44, 0x55, 0xad, 0xd6, 0xca, 0x5b, 0x86, 0x69, 0x5d, 0x65, 0xd3, 0x26, 0x1d, 0x91, 0x4b, 0xc1, 0xd7, 0xab, 0xb4, 0x0b, 0x18, 0x8c, 0x7f, 0x46, 0xc9, 0xa5]
    ∧ serialize_ecdsa_der 57069924365784604413146650701306419944030991562754207986153667089859857018394 (curveN - 11615408348402409164215774430388304177694127390766203039231142052414850779557)
      = [0x30, 0x44, 0x02, 0x20, 0x7e, 0x2c, 0x6e, 0xb8, 0xc4, 0xb2, 0x0e, 0x25, 0x1a, 0x71, 0xc5, 0x80, 0x37, 0x3a, 0x28, 0x36, 0xe2, 0x09, 0xc5, 0x07, 0x26, 0xe5, 0xf8, 0xb0, 0xf4, 0xf5, 0x9f, 0x8a, 0xf0, 0x0e, 0xee, 0x1a, 0x02, 0x20, 0x19, 0xae, 0x16, 0x90, 0xe2, 0xeb, 0x44, 0x55, 0xad, 0xd6, 0xca, 0x5b, 0x86, 0x69, 0x5d, 0x65, 0xd3, 0x26, 0x1d, 0x91, 0x4b, 0xc1, 0xd7, 0xab, 0xb4, 0x0b, 0x18, 0x8c, 0x7f, 0x46, 0xc9, 0xa5]
    ∧ serialize_ecdsa_der 16256011036517295435281672405882454685603286080662722236323812471789728336314 399115516115506318232804590771004057701078428754012727453057145885291814963
      = [0x30, 0x44, 0x02, 0x20, 0x23, 0xf0, 0x93, 0x81, 0x39, 0x11, 0xa6, 0x58, 0xac, 0x7c, 0xba, 0xeb, 0x8b, 0xa7, 0x82, 0x8b, 0x40, 0x67, 0xea, 0x35, 0x82, 0xc7, 0x8f, 0x8b, 0xd2, 0xc3, 0x8b, 0x1f, 0x31, 0x74, 0x89, 0xba, 0x02, 0x20, 0x00, 0xe1, 0xe4, 0x31, 0x45, 0xa8, 0x9f, 0x0d, 0x9d, 0x85, 0x24, 0x79, 0x8b, 0x8a, 0xe2, 0xca, 0x60, 0xeb, 0xf3, 0x94, 0x7e, 0x35, 0x10, 0x6d, 0x5e, 0x1d, 0xdf, 0x39, 0x89, 0x85, 0xa0, 0x33]
    ∧ serialize_ecdsa_der 16256011036517295435281672405882454685603286080662722236323812471789728336314 (curveN - 399115516115506318232804590771004057701078428754012727453057145885291814963)
      = [0x30, 0x44, 0x02, 0x20, 0x23, 0xf0, 0x93, 0x81, 0x39, 0x11, 0xa6, 0x58, 0xac, 0x7c, 0xba, 0xeb, 0x8b, 0xa7, 0x82, 0x8b, 0x40, 0x67, 0xea, 0x35, 0x82, 0xc7, 0x8f, 0x8b, 0xd2, 0xc3, 0x8b, 0x1f, 0x31, 0x74, 0x89, 0xba, 0x02, 0x20, 0x00, 0xe1, 0xe4, 0x31, 0x45, 0xa8, 0x9f, 0x0d, 0x9d, 0x85, 0x24, 0x79, 0x8b, 0x8a, 0xe2, 0xca, 0x60, 0xeb, 0xf3, 0x94, 0x7e, 0x35, 0x10, 0x6d, 0x5e, 0x1d, 0xdf, 0x39, 0x89, 0x85, 0xa0, 0x33]
    ∧ deserialize_ecdsa_der [0x30, 0x45, 0x02, 0x21, 0x00, 0xfd, 0x56, 0x47, 0xa0, 0x62, 0xd4, 0x2c, 0xdd, 0xe9, 0x75, 0xad, 0x47, 0x96, 0xce, 0xfd, 0x6b, 0x56, 0x13, 0xe7, 0x31, 0xc0, 0x8e, 0x0f, 0xb6, 0x90, 0x7f, 0x75, 0x7a, 0x60, 0xf4, 0x4b, 0x02, 0x02, 0x20, 0x35, 0x0f, 0xee, 0x39, 0x27, 0x13, 0x42, 0x3e, 0xbf, 0xcd, 0x80, 0x26, 0xea, 0x29, 0xcc, 0x95, 0x91, 0x7d, 0x82, 0x33, 0x92, 0xf0, 0x7c, 0xd6, 0xc8, 0x0f, 0x46, 0x71, 0x26, 0x50, 0x38, 0x8e]
      = .ok (114587593887127314608220924841831336233967095853165151956820984900193959037698, 24000727837347392504013031837120627225728348681623127776947626422811445180558)
    ∧ deserialize_ecdsa_der [0x30, 0x44, 0x02, 0x20, 0x7e, 0x2c, 0x6e, 0xb8, 0xc4, 0xb2, 0x0e, 0x25, 0x1a, 0x71, 0xc5, 0x80, 0x37, 0x3a, 0x28, 0x36, 0xe2, 0x09, 0xc5, 0x07, 0x26, 0xe5, 0xf8, 0xb0, 0xf4, 0xf5, 0x9f, 0x8a, 0xf0, 0x0e, 0xee, 0x1a, 0x02, 0x20, 0x19, 0xae, 0x16, 0x90, 0xe2, 0xeb, 0x44, 0x55, 0xad, 0xd6, 0xca, 0x5b, 0x86, 0x69, 0x5d, 0x65, 0xd3, 0x26, 0x1d, 0x91, 0x4b, 0xc1, 0xd7, 0xab, 0xb4, 0x0b, 0x18, 0x8c, 0x7f, 0x46, 0xc9, 0xa5]
      = .ok (57069924365784604413146650701306419944030991562754207986153667089859857018394, 11615408348402409164215774430388304177694127390766203039231142052414850779557)
    ∧ deserialize_ecdsa_der [] = .error .invalidDerEncoded := by
  decide

/-- The assertions of `test_recoverable_serialization`
(`tests/test_utils.py` lines 120–139): both base64 vectors unstringify to
the serializer's compact bytes with the right compression flag,
deserialize to the literal `(r, s, recovery_id)`, and stringify back to
the original strings. -/
theorem test_recoverable_serialization :
    unstringify_ecdsa_recoverable (strBytes ("IGdzMq98lowek10e3JFXWj909xp0oLRj71aF7jpWRxaabwH+fBia/K2JpoGQlFFbAl/Q5jo2DYSzQw6pZWhmRtk="))
      = .ok (serialize_ecdsa_recoverable 46791760634954614230959036903197650877536710453529507613159894982805988775578 50210249429004071986853078788876176203428035162933045037212292756431067039449 1, true)
    ∧ deserialize_ecdsa_recoverable (serialize_ecdsa_recoverable 46791760634954614230959036903197650877536710453529507613159894982805988775578 50210249429004071986853078788876176203428035162933045037212292756431067039449 1)
      = .ok (46791760634954614230959036903197650877536710453529507613159894982805988775578, 50210249429004071986853078788876176203428035162933045037212292756431067039449, 1)
    ∧ stringify_ecdsa_recoverable (serialize_ecdsa_recoverable 46791760634954614230959036903197650877536710453529507613159894982805988775578 50210249429004071986853078788876176203428035162933045037212292756431067039449 1) true
      = strBytes ("IGdzMq98lowek10e3JFXWj909xp0oLRj71aF7jpWRxaabwH+fBia/K2JpoGQlFFbAl/Q5jo2DYSzQw6pZWhmRtk=")
    ∧ unstringify_ecdsa_recoverable (strBytes ("G1CbjucJgMF/5lyS7LPZrLZPVU60RA6b7fq9b1zULG6uNq4PWQUD8HAvZMgKRPk/vkbDwN0ZsPwoVgKgV5rOSyI="))
      = .ok (serialize_ecdsa_recoverable 36459875458431662725541158294877706686723420026424146605771954142876183326382 24732431138926461036459634608851410023678722603615132417233328850542638549794 0, false)
    ∧ deserialize_ecdsa_recoverable (serialize_ecdsa_recoverable 36459875458431662725541158294877706686723420026424146605771954142876183326382 24732431138926461036459634608851410023678722603615132417233328850542638549794 0)
      = .ok (36459875458431662725541158294877706686723420026424146605771954142876183326382, 24732431138926461036459634608851410023678722603615132417233328850542638549794, 0)
    ∧ stringify_ecdsa_recoverable (serialize_ecdsa_recoverable 36459875458431662725541158294877706686723420026424146605771954142876183326382 24732431138926461036459634608851410023678722603615132417233328850542638549794 0) false
      = strBytes ("G1CbjucJgMF/5lyS7LPZrLZPVU60RA6b7fq9b1zULG6uNq4PWQUD8HAvZMgKRPk/vkbDwN0ZsPwoVgKgV5rOSyI=") := by
  decide

end BsvSdk
